import Mathlib

/-!
# Verification of the whitelist / usage-quota subsystem

Shallow embedding of the access-control and usage-metering core of the
repository (`src/supabase_manager.py`, `src/auth_manager.py`,
`src/simple_audio_tour.py`).  The remote `whitelist_users` table is modelled
as a list of rows; every datastore round trip that can raise an exception in
Python is given an explicit Boolean failure flag, so the `except` branches of
the source become reachable branches of the Lean functions.  State-mutating
operations return the updated table alongside their Python return value.
-/

namespace AudioTour

/-- A row of the `whitelist_users` table.  `tokens_used` and `token_limit`
are nullable columns (`none` models SQL NULL / an absent key in the returned
record). -/
structure WRow where
  email : String
  role : String
  is_active : Bool
  tokens_used : Option Int := none
  token_limit : Option Int := none
deriving Repr, DecidableEq

/-- The datastore state visible to `SupabaseManager`: whether the client was
initialised, and the rows of `whitelist_users`. -/
structure DB where
  clientOk : Bool := true
  rows : List WRow := []
deriving Repr, DecidableEq

/-- `.eq("email", email).maybe_single()` : the first row matching the email,
if any. -/
def findRow (db : DB) (email : String) : Option WRow :=
  db.rows.find? (fun q => q.email == email)

/-- Return shape of `check_email_in_whitelist`. -/
structure WhitelistStatus where
  exists_ : Bool
  is_active : Bool
  role : String
deriving Repr, DecidableEq

/-- `SupabaseManager.check_email_in_whitelist` (supabase_manager.py:39-72).
`lookupFails` models the select raising an exception. -/
def check_email_in_whitelist (db : DB) (email : String) (lookupFails : Bool) :
    WhitelistStatus :=
  if db.clientOk = false ∨ email = "" then ⟨false, false, "user"⟩
  else if lookupFails then ⟨false, false, "user"⟩
  else match findRow db email with
    | none => ⟨false, false, "user"⟩
    | some r => ⟨true, r.is_active, r.role⟩

/-- `SupabaseManager.is_admin` (supabase_manager.py:74-90).  On its own
lookup failure the `except` branch returns `False`. -/
def is_admin (db : DB) (email : String) (lookupFails : Bool) : Bool :=
  if db.clientOk = false ∨ email = "" then false
  else if lookupFails then false
  else match findRow db email with
    | none => false
    | some r => r.role == "admin"

/-- A Python numeric limit: either an `int` or `float('inf')`. -/
inductive PyLimit
  | fin (n : Int)
  | inf
deriving Repr, DecidableEq

/-- Python's `x <= token_limit` where `token_limit` may be `float('inf')`. -/
def PyLimit.leB (x : Int) : PyLimit → Bool
  | .fin n => x ≤ n
  | .inf => true

/-- `result.data.get('tokens_used', 0) or 0` : NULL coerces to 0. -/
def effTokensUsed (raw : Option Int) : Int := raw.getD 0

/-- `token_limit = result.data.get('token_limit', 10000) or 10000` followed by
`if token_limit == 0: token_limit = float('inf')` (supabase_manager.py:383-387).
The `or 10000` already maps a stored 0 (falsy) to 10000, so the final test
can only see a non-zero value. -/
def effTokenLimit (raw : Option Int) : PyLimit :=
  let l1 : Int :=
    match raw with
    | none => 10000
    | some v => if v = 0 then 10000 else v
  if l1 = 0 then .inf else .fin l1

/-- Return shape of `check_token_usage`: the union of the keys of the dicts
the Python function can return; keys absent from a given return are `none`. -/
structure TokenCheckResult where
  can_proceed : Bool
  reason : Option String := none
  tokens_used : Option Int := none
  tokens_limit : Option PyLimit := none
  is_admin : Option Bool := none
  message : Option String := none
deriving Repr, DecidableEq

/-- `SupabaseManager.check_token_usage` (supabase_manager.py:356-409).
`adminLookupFails` models the select inside the nested `is_admin` call
raising (that exception is swallowed inside `is_admin`); `usageLookupFails`
models this function's own select raising, which lands in the `except`
branch that returns `can_proceed=True` (fail open). -/
def check_token_usage (db : DB) (email : String) (required_tokens : Int)
    (adminLookupFails usageLookupFails : Bool) : TokenCheckResult :=
  if db.clientOk = false ∨ email = "" then
    { can_proceed := false, reason := some "Error de autenticación" }
  else if is_admin db email adminLookupFails then
    { can_proceed := true, tokens_used := some 0, tokens_limit := some .inf,
      is_admin := some true, message := some "Admin sin restricciones" }
  else if usageLookupFails then
    { can_proceed := true, tokens_used := some 0, tokens_limit := some .inf,
      is_admin := some false,
      message := some "Error al verificar tokens, acceso permitido" }
  else match findRow db email with
    | none => { can_proceed := false, reason := some "Usuario no encontrado" }
    | some r =>
      let tokens_used := effTokensUsed r.tokens_used
      let token_limit := effTokenLimit r.token_limit
      { can_proceed := PyLimit.leB (tokens_used + required_tokens) token_limit,
        tokens_used := some tokens_used,
        tokens_limit := some token_limit,
        is_admin := some false,
        message := some (match token_limit with
          | .fin n => "Usados: " ++ toString tokens_used ++ "/" ++ toString n
          | .inf => "Uso ilimitado") }

/-- `SimpleTourGuide._check_token_limit` as invoked before a generation
request (simple_audio_tour.py:99-104, 122-123): only the token estimate is
passed to `check_token_usage`; the character count `C` of the text to be
synthesised is never consulted by any admission check in the code. -/
def preflight (db : DB) (email : String) (T C : Int) : Bool :=
  (check_token_usage db email T false false).can_proceed

/-- Modelled from the spec: the TTS character ledger is absent from the code
(no `tts_chars_used` counter and no character-based admission test exist in
src/); per the spec's configuration section, `MONTHLY_TTS_CHAR_LIMIT`
defaults to 100000, so a user's TTS characters remaining never exceeds this
bound. -/
def MONTHLY_TTS_CHAR_LIMIT : Int := 100000

/-- `SupabaseManager.update_token_usage` (supabase_manager.py:411-445).
Returns the Python boolean together with the updated table.  `readFails` /
`writeFails` model the select / update raising; both land in the `except`
branch, which logs and returns `True`. -/
def update_token_usage (db : DB) (email : String) (tokens_used : Int)
    (adminLookupFails readFails writeFails : Bool) : Bool × DB :=
  if is_admin db email adminLookupFails then (true, db)
  else if db.clientOk = false ∨ email = "" then (false, db)
  else if readFails then (true, db)
  else match findRow db email with
    | none => (false, db)
    | some r =>
      let current := effTokensUsed r.tokens_used
      let newTok := current + tokens_used
      if writeFails then (true, db)
      else (true, { db with
        rows := db.rows.map (fun q =>
          if q.email == email then { q with tokens_used := some newTok }
          else q) })

/-- Return shape of `request_access`. -/
structure RequestResult where
  success : Bool
  message : String
  status : String
deriving Repr, DecidableEq

/-- The row `request_access` inserts for a new email
(supabase_manager.py:149-157). -/
def newWhitelistRow (email : String) : WRow :=
  { email := email, role := "user", is_active := false,
    tokens_used := some 0, token_limit := some 10000 }

/-- `SupabaseManager.request_access` (supabase_manager.py:108-173).
`insertRaises` models the insert raising (e.g. a uniqueness-constraint
violation when a concurrent request already inserted the email);
`insertDataEmpty` models the insert returning no data. -/
def request_access (db : DB) (email : String)
    (lookupFails insertRaises insertDataEmpty : Bool) : RequestResult × DB :=
  if db.clientOk = false ∨ email = "" then
    ({ success := false, message := "Error de configuración del sistema",
       status := "error" }, db)
  else
    let current := check_email_in_whitelist db email lookupFails
    if current.exists_ then
      if current.is_active then
        ({ success := true, message := "Esta cuenta ya está activa",
           status := "active" }, db)
      else
        ({ success := true,
           message := "Ya tienes una solicitud pendiente de aprobación. Te notificaremos cuando sea revisada.",
           status := "pending" }, db)
    else if insertRaises then
      ({ success := false, message := "Error en el servidor",
         status := "error" }, db)
    else if insertDataEmpty then
      ({ success := false,
         message := "No se pudo crear la solicitud. Inténtalo de nuevo.",
         status := "error" }, db)
    else
      ({ success := true,
         message := "✅ Solicitud de acceso creada correctamente. Un administrador la revisará pronto.",
         status := "pending" },
       { db with rows := db.rows ++ [newWhitelistRow email] })

/-- The `user` payload of `approve_user`: either a full updated row
(`result.data[0]`) or the literal three-key dict built in the
already-active branch. -/
inductive ApproveUser
  | row (r : WRow)
  | brief (email : String) (is_active : Bool) (role : String)
deriving Repr, DecidableEq

/-- Return value of `approve_user`: the dict shape on normal paths, or the
bare `False` the `except` branch returns (supabase_manager.py:234). -/
inductive ApproveResult
  | res (success : Bool) (message : String) (user : Option ApproveUser)
  | exnFalse
deriving Repr, DecidableEq

/-- The `success` field of an `approve_user` result (`False` is a failed
result). -/
def ApproveResult.successB : ApproveResult → Bool
  | .res s _ _ => s
  | .exnFalse => false

/-- `SupabaseManager.approve_user` (supabase_manager.py:175-234).
`lookupFails` models the select inside `check_email_in_whitelist` raising
(swallowed there, yielding the fail-closed default); `writeFails` models the
update raising, which lands in the `except` branch returning the bare
`False`. -/
def approve_user (db : DB) (email : String) (lookupFails writeFails : Bool) :
    ApproveResult × DB :=
  if db.clientOk = false ∨ email = "" then
    (.res false "Parámetros inválidos" none, db)
  else
    let current := check_email_in_whitelist db email lookupFails
    if current.exists_ = false then
      (.res false "El usuario no existe" none, db)
    else if current.is_active then
      (.res true "El usuario ya está activo"
        (some (.brief email true current.role)), db)
    else if writeFails then (.exnFalse, db)
    else
      let data := (db.rows.filter (fun q => q.email == email)).map
        (fun q => { q with is_active := true })
      if data = [] then (.res false "No se pudo actualizar el usuario" none, db)
      else
        (.res true "Usuario aprobado exitosamente" (data.head?.map .row),
         { db with rows := db.rows.map (fun q =>
             if q.email == email then { q with is_active := true } else q) })

/-- The keys `AuthManager` may set in `st.session_state`; `none` means the
key is not present. -/
structure SessionState where
  authenticated : Option Bool := none
  user_email : Option String := none
  is_admin : Option Bool := none
deriving Repr, DecidableEq

/-- The successful-login effect of `AuthManager.show_login_form`
(auth_manager.py:50-52): sets all three identity keys. -/
def loginSuccess (s : SessionState) (email : String) (role : String) :
    SessionState :=
  { s with authenticated := some true, user_email := some email,
           is_admin := some (role == "admin") }

/-- `AuthManager.logout` (auth_manager.py:222-228): deletes `authenticated`
and `user_email` when present; no other key is touched. -/
def logout (s : SessionState) : SessionState :=
  let s1 := if s.authenticated.isSome then { s with authenticated := none }
            else s
  if s1.user_email.isSome then { s1 with user_email := none } else s1

/-! ## Concrete states used by witnesses and counterexamples -/

/-- A freshly admitted ordinary user with no recorded usage. -/
def dbFresh : DB :=
  { clientOk := true,
    rows := [{ email := "u@example.com", role := "user", is_active := true,
               tokens_used := some 0, token_limit := some 10000 }] }

/-- An ordinary user part-way through the month's budget. -/
def dbPartUsed : DB :=
  { clientOk := true,
    rows := [{ email := "u@example.com", role := "user", is_active := true,
               tokens_used := some 100, token_limit := some 10000 }] }

/-- An administrator with enormous recorded usage. -/
def dbAdminHeavy : DB :=
  { clientOk := true,
    rows := [{ email := "boss@example.com", role := "admin", is_active := true,
               tokens_used := some 999999999, token_limit := some 10 }] }

/-- A user whose stored `token_limit` is 0 and whose usage is far beyond the
default limit. -/
def dbLimitZero : DB :=
  { clientOk := true,
    rows := [{ email := "u@example.com", role := "user", is_active := true,
               tokens_used := some 20000, token_limit := some 0 }] }

/-- A pending (not yet approved) user. -/
def dbPending : DB :=
  { clientOk := true,
    rows := [{ email := "p@example.com", role := "user", is_active := false,
               tokens_used := some 0, token_limit := some 10000 }] }

/-- An empty whitelist with a working client. -/
def dbEmpty : DB := { clientOk := true, rows := [] }

/-! ## Helper lemmas -/

/-- `find?` commutes with an email-guarded row update: updating every row
matching `email` with an email-preserving function and then searching for
`email` finds exactly the updated first match. -/
theorem find?_update_row (rows : List WRow) (email : String) (f : WRow → WRow)
    (hf : ∀ q, (f q).email = q.email) :
    (rows.map (fun q => if q.email == email then f q else q)).find?
        (fun q => q.email == email)
      = (rows.find? (fun q => q.email == email)).map f := by
  induction rows with
  | nil => rfl
  | cons a t ih =>
    rw [List.map_cons]
    by_cases hp : (a.email == email) = true
    · have hpf : ((f a).email == email) = true := by rw [hf a]; exact hp
      rw [if_pos hp]
      simp [List.find?, hp, hpf]
    · have hp' : (a.email == email) = false := by
        cases h : (a.email == email) with
        | true => exact absurd h hp
        | false => rfl
      have hpf : ((f a).email == email) = false := by rw [hf a]; exact hp'
      rw [if_neg (by simp [hp'])]
      simp only [List.find?, hp', hpf]
      exact ih

/-- Under a working client and a found row, `is_admin` reduces to the row's
role test. -/
theorem is_admin_of_find (db : DB) (email : String) (r : WRow)
    (hc : db.clientOk = true) (he : email ≠ "")
    (hfind : findRow db email = some r) :
    is_admin db email false = (r.role == "admin") := by
  have h1 : ¬(db.clientOk = false ∨ email = "") := by simp [hc, he]
  simp [is_admin, h1, hfind]

/-- Under a working client, a found row and no lookup error,
`check_email_in_whitelist` reports the row's state. -/
theorem check_email_of_find (db : DB) (email : String) (r : WRow)
    (hc : db.clientOk = true) (he : email ≠ "")
    (hfind : findRow db email = some r) :
    check_email_in_whitelist db email false = ⟨true, r.is_active, r.role⟩ := by
  have h1 : ¬(db.clientOk = false ∨ email = "") := by simp [hc, he]
  simp [check_email_in_whitelist, h1, hfind]

/-- Under a working client, a found non-admin row and no datastore error,
`check_token_usage` reports the row's coerced `tokens_used`. -/
theorem check_reports_row (db : DB) (email : String) (r : WRow) (T : Int)
    (hc : db.clientOk = true) (he : email ≠ "")
    (hfind : findRow db email = some r) (hrole : r.role ≠ "admin") :
    (check_token_usage db email T false false).tokens_used
      = some (effTokensUsed r.tokens_used) := by
  have h1 : ¬(db.clientOk = false ∨ email = "") := by simp [hc, he]
  have ha : is_admin db email false = false := by
    rw [is_admin_of_find db email r hc he hfind]
    simp [hrole]
  simp [check_token_usage, h1, ha, hfind]

/-! ## Claims -/

/-- Claim C1, counterexample.  The claim states that the pre-flight admission
check returns `allowed=false` whenever the requested synthesis-character
count `C` exceeds the TTS characters remaining.  At the concrete state
`dbFresh` (a fresh user), with `T = 0` and `C = 200000`, the requested
characters exceed any possible remaining allowance (`200000` is above the
spec's `MONTHLY_TTS_CHAR_LIMIT` of 100000), yet the admission check returns
`true`: the code never consults `C`. -/
theorem C1_counterexample :
    preflight dbFresh "u@example.com" 0 200000 = true
    ∧ MONTHLY_TTS_CHAR_LIMIT < 200000 := by
  constructor
  · rfl
  · decide

/-- Claim C1, amended.  The pre-flight admission check enforces tokens only:
for a non-admin user with a whitelist row and no datastore error, it allows
the request iff `tokens_used + T` is within the effective token limit
(equivalently `T ≤ tokens_remaining`); the requested synthesis-character
count `C` is never consulted. -/
theorem C1_token_only_admission (db : DB) (email : String) (r : WRow)
    (T C : Int) (hc : db.clientOk = true) (he : email ≠ "")
    (hfind : findRow db email = some r) (hrole : r.role ≠ "admin") :
    preflight db email T C = true
      ↔ PyLimit.leB (effTokensUsed r.tokens_used + T)
          (effTokenLimit r.token_limit) = true := by
  have h1 : ¬(db.clientOk = false ∨ email = "") := by simp [hc, he]
  have ha : is_admin db email false = false := by
    rw [is_admin_of_find db email r hc he hfind]
    simp [hrole]
  simp [preflight, check_token_usage, h1, ha, hfind]

/-- Claim C1, witness: a user at 100 of 10000 tokens requesting 50 more
tokens and an arbitrary huge character count is admitted. -/
theorem C1_token_only_admission_witness :
    preflight dbPartUsed "u@example.com" 50 999999 = true :=
  (C1_token_only_admission dbPartUsed "u@example.com"
    ⟨"u@example.com", "user", true, some 100, some 10000⟩ 50 999999
    rfl (by decide) rfl (by decide)).mpr (by decide)

/-- Claim C2, counterexample.  The claim states that usage is keyed by
`(email, month)` and consumption recorded in month M leaves the next month's
record at zero.  The code keys usage by email alone — no function and no
stored field mentions a month — so after recording 500 tokens, every
subsequent status check (in particular any later month's) reports 500, not a
fresh zero. -/
theorem C2_counterexample :
    (check_token_usage
        (update_token_usage dbFresh "u@example.com" 500 false false false).2
        "u@example.com" 0 false false).tokens_used = some 500
    ∧ ¬ (check_token_usage
        (update_token_usage dbFresh "u@example.com" 500 false false false).2
        "u@example.com" 0 false false).tokens_used = some 0 := by
  constructor
  · rfl
  · decide

/-- Claim C2, amended.  Usage is keyed by email alone: `tokens_used` is a
single counter on the whitelist row with no month component, and usage
recorded by `update_token_usage` is reflected additively in every subsequent
`check_token_usage`, with no monthly reset. -/
theorem C2_email_keyed_usage (db : DB) (email : String) (r : WRow) (n : Int)
    (hc : db.clientOk = true) (he : email ≠ "")
    (hfind : findRow db email = some r) (hrole : r.role ≠ "admin") :
    (check_token_usage
        (update_token_usage db email n false false false).2
        email 0 false false).tokens_used
      = some (effTokensUsed r.tokens_used + n) := by
  have h1 : ¬(db.clientOk = false ∨ email = "") := by simp [hc, he]
  have ha : is_admin db email false = false := by
    rw [is_admin_of_find db email r hc he hfind]
    simp [hrole]
  set db2 : DB := { db with rows := db.rows.map (fun q =>
      if q.email == email then
        { q with tokens_used := some (effTokensUsed r.tokens_used + n) }
      else q) } with hdb2
  set r2 : WRow :=
    { r with tokens_used := some (effTokensUsed r.tokens_used + n) } with hr2
  have hupd : (update_token_usage db email n false false false).2 = db2 := by
    simp [update_token_usage, ha, h1, hfind, hdb2]
  have hfind' : findRow db2 email = some r2 := by
    unfold findRow at hfind ⊢
    rw [hdb2]
    rw [find?_update_row db.rows email
        (fun q => { q with tokens_used := some (effTokensUsed r.tokens_used + n) })
        (fun q => rfl), hfind]
    rfl
  have hc2 : db2.clientOk = true := hc
  have hrole2 : r2.role ≠ "admin" := hrole
  rw [hupd, check_reports_row db2 email r2 0 hc2 he hfind' hrole2]
  rfl

/-- Claim C2, witness: recording 500 tokens on a fresh user makes the next
status check report 500. -/
theorem C2_email_keyed_usage_witness :
    (check_token_usage
        (update_token_usage dbFresh "u@example.com" 500 false false false).2
        "u@example.com" 0 false false).tokens_used
      = some (effTokensUsed (some 0) + 500) :=
  C2_email_keyed_usage dbFresh "u@example.com"
    ⟨"u@example.com", "user", true, some 0, some 10000⟩ 500
    rfl (by decide) rfl (by decide)

/-- Claim C3 (confirmed).  For any whitelist state in which the email's row
has role `admin` (working client, admin lookup succeeding), the admission
check returns `can_proceed=true` for every requested token amount and
whatever usage is recorded — even if this function's own usage select would
fail. -/
theorem C3_admin_bypass (db : DB) (email : String) (r : WRow) (T : Int)
    (uF : Bool) (hc : db.clientOk = true) (he : email ≠ "")
    (hfind : findRow db email = some r) (hrole : r.role = "admin") :
    (check_token_usage db email T false uF).can_proceed = true := by
  have h1 : ¬(db.clientOk = false ∨ email = "") := by simp [hc, he]
  have ha : is_admin db email false = true := by
    rw [is_admin_of_find db email r hc he hfind, hrole]
    rfl
  simp [check_token_usage, h1, ha]

/-- Claim C3, witness: an administrator with enormous recorded usage and a
tiny personal limit requesting a huge amount is still admitted. -/
theorem C3_admin_bypass_witness :
    (check_token_usage dbAdminHeavy "boss@example.com" 123456789 false
        true).can_proceed = true :=
  C3_admin_bypass dbAdminHeavy "boss@example.com"
    ⟨"boss@example.com", "admin", true, some 999999999, some 10⟩ 123456789
    true rfl (by decide) rfl rfl

/-- Claim C4 (confirmed).  `check_email_in_whitelist` is a total function
(the embedding of a body whose single try/except returns on every path), and
on a lookup error, an absent row, a missing client or an empty email its
result is exactly the fail-closed default
`exists=false, is_active=false, role="user"`. -/
theorem C4_fail_closed_default (db : DB) (email : String) (lookupFails : Bool)
    (h : lookupFails = true ∨ findRow db email = none ∨ db.clientOk = false
      ∨ email = "") :
    check_email_in_whitelist db email lookupFails = ⟨false, false, "user"⟩ := by
  unfold check_email_in_whitelist
  by_cases h1 : db.clientOk = false ∨ email = ""
  · rw [if_pos h1]
  · rw [if_neg h1]
    by_cases h2 : lookupFails = true
    · rw [if_pos h2]
    · rw [if_neg h2]
      rcases h with hf | hn | hcl | hem
      · exact absurd hf h2
      · rw [hn]
      · exact absurd (Or.inl hcl) h1
      · exact absurd (Or.inr hem) h1

/-- Claim C4, witness: a failing lookup on an empty table yields the
fail-closed default. -/
theorem C4_fail_closed_default_witness :
    check_email_in_whitelist dbEmpty "x@example.com" true
      = ⟨false, false, "user"⟩ :=
  C4_fail_closed_default dbEmpty "x@example.com" true (Or.inl rfl)

/-- Claim C5 (confirmed).  On an email that already has a whitelist row,
`request_access` reports `success=true` with the entry's current state —
status "active" if the row is active, "pending" otherwise — and leaves the
table untouched, whatever the insert would have done; hence a second call
returns the very same result and the number of stored rows for the email is
unchanged. -/
theorem C5_request_access_idempotent (db : DB) (email : String) (r : WRow)
    (iR iE : Bool) (hc : db.clientOk = true) (he : email ≠ "")
    (hfind : findRow db email = some r) :
    (request_access db email false iR iE).1.success = true
    ∧ (r.is_active = true →
        (request_access db email false iR iE).1.status = "active")
    ∧ (r.is_active = false →
        (request_access db email false iR iE).1.status = "pending")
    ∧ (request_access db email false iR iE).2 = db
    ∧ request_access (request_access db email false iR iE).2 email false iR iE
      = request_access db email false iR iE
    ∧ ((request_access db email false iR iE).2.rows.countP
        (fun q => q.email == email))
      = db.rows.countP (fun q => q.email == email) := by
  have h1 : ¬(db.clientOk = false ∨ email = "") := by simp [hc, he]
  have hchk := check_email_of_find db email r hc he hfind
  cases hact : r.is_active with
  | true =>
    rw [hact] at hchk
    have hmain : request_access db email false iR iE
        = ({ success := true, message := "Esta cuenta ya está activa",
             status := "active" }, db) := by
      simp [request_access, h1, hchk]
    rw [hmain]
    exact ⟨rfl, fun _ => rfl, fun hcon => absurd hcon (by decide), rfl,
      hmain, rfl⟩
  | false =>
    rw [hact] at hchk
    have hmain : request_access db email false iR iE
        = ({ success := true,
             message := "Ya tienes una solicitud pendiente de aprobación. Te notificaremos cuando sea revisada.",
             status := "pending" }, db) := by
      simp [request_access, h1, hchk]
    rw [hmain]
    exact ⟨rfl, fun hcon => absurd hcon (by decide), fun _ => rfl, rfl,
      hmain, rfl⟩

/-- Claim C5, witness: two consecutive `request_access` calls on the pending
user of `dbPending` give the same "pending" result with exactly one stored
row for that email, and a call on the already-active user of `dbFresh`
reports "active" without touching the table. -/
theorem C5_request_access_idempotent_witness :
    (request_access dbPending "p@example.com" false false false).1.status
      = "pending"
    ∧ request_access
        (request_access dbPending "p@example.com" false false false).2
        "p@example.com" false false false
      = request_access dbPending "p@example.com" false false false
    ∧ ((request_access dbPending "p@example.com" false false false).2.rows.countP
        (fun q => q.email == "p@example.com")) = 1
    ∧ (request_access dbFresh "u@example.com" false false false).1.status
      = "active"
    ∧ (request_access dbFresh "u@example.com" false false false).2
      = dbFresh := by
  have h := C5_request_access_idempotent dbPending "p@example.com"
    ⟨"p@example.com", "user", false, some 0, some 10000⟩ false false
    rfl (by decide) rfl
  have h2 := C5_request_access_idempotent dbFresh "u@example.com"
    ⟨"u@example.com", "user", true, some 0, some 10000⟩ false false
    rfl (by decide) rfl
  exact ⟨h.2.2.1 rfl, h.2.2.2.2.1, by rw [h.2.2.2.1]; rfl,
    h2.2.1 rfl, h2.2.2.2.1⟩

/-- Claim C6 (confirmed).  With a working client and no datastore failure:
`approve_user` on a pending email reports success and a subsequent
`check_email_in_whitelist` on the resulting state reports `is_active=true`;
on an already-active email it reports success and leaves the table
untouched; on an email with no whitelist row it reports failure. -/
theorem C6_approve_user_transitions (db : DB) (email : String)
    (hc : db.clientOk = true) (he : email ≠ "") :
    (∀ r, findRow db email = some r → r.is_active = false →
        (approve_user db email false false).1.successB = true
        ∧ (check_email_in_whitelist (approve_user db email false false).2
            email false).is_active = true)
    ∧ (∀ r, findRow db email = some r → r.is_active = true →
        (approve_user db email false false).1.successB = true
        ∧ (approve_user db email false false).2 = db)
    ∧ (findRow db email = none →
        (approve_user db email false false).1.successB = false) := by
  have h1 : ¬(db.clientOk = false ∨ email = "") := by simp [hc, he]
  refine ⟨?_, ?_, ?_⟩
  · intro r hfind hact
    have hchk : check_email_in_whitelist db email false
        = ⟨true, false, r.role⟩ := by
      simp [check_email_in_whitelist, h1, hfind, hact]
    have hfind0 : db.rows.find? (fun q => q.email == email) = some r := hfind
    have hmem : r ∈ db.rows := List.mem_of_find?_eq_some hfind0
    have hp : (r.email == email) = true :=
      List.find?_some (p := fun (q : WRow) => q.email == email) hfind0
    have hne : ¬((db.rows.filter (fun q => q.email == email)).map
        (fun q => { q with is_active := true }) = []) := by
      intro hnil
      have : { r with is_active := true } ∈
          (db.rows.filter (fun q => q.email == email)).map
            (fun q => { q with is_active := true }) :=
        List.mem_map_of_mem _ (List.mem_filter.mpr ⟨hmem, hp⟩)
      rw [hnil] at this
      exact absurd this (List.not_mem_nil _)
    have hmain : approve_user db email false false
        = (.res true "Usuario aprobado exitosamente"
            (((db.rows.filter (fun q => q.email == email)).map
              (fun q => { q with is_active := true })).head?.map .row),
           { db with rows := db.rows.map (fun q =>
               if q.email == email then { q with is_active := true }
               else q) }) := by
      simp [approve_user, h1, hchk, hne]
    rw [hmain]
    refine ⟨rfl, ?_⟩
    have hfind' : findRow { db with rows := db.rows.map (fun q =>
        if q.email == email then { q with is_active := true } else q) } email
        = some { r with is_active := true } := by
      unfold findRow
      show (db.rows.map (fun q =>
          if q.email == email then { q with is_active := true }
          else q)).find? (fun q => q.email == email)
        = some { r with is_active := true }
      rw [find?_update_row db.rows email
          (fun q => { q with is_active := true }) (fun q => rfl), hfind0]
      rfl
    have hc2 : (({ db with rows := db.rows.map (fun q =>
        if q.email == email then { q with is_active := true }
        else q) }) : DB).clientOk = true := hc
    rw [check_email_of_find _ email _ hc2 he hfind']
  · intro r hfind hact
    have hchk : check_email_in_whitelist db email false
        = ⟨true, true, r.role⟩ := by
      simp [check_email_in_whitelist, h1, hfind, hact]
    have hmain : approve_user db email false false
        = (.res true "El usuario ya está activo"
            (some (.brief email true r.role)), db) := by
      simp [approve_user, h1, hchk]
    rw [hmain]
    exact ⟨rfl, rfl⟩
  · intro hfind
    have hchk : check_email_in_whitelist db email false
        = ⟨false, false, "user"⟩ := by
      simp [check_email_in_whitelist, h1, hfind]
    simp [approve_user, h1, hchk, ApproveResult.successB]

/-- Claim C6, witness: approving the pending user of `dbPending` succeeds
and the subsequent whitelist check sees `is_active=true`. -/
theorem C6_approve_user_transitions_witness :
    (approve_user dbPending "p@example.com" false false).1.successB = true
    ∧ (check_email_in_whitelist
        (approve_user dbPending "p@example.com" false false).2
        "p@example.com" false).is_active = true :=
  (C6_approve_user_transitions dbPending "p@example.com" rfl (by decide)).1
    ⟨"p@example.com", "user", false, some 0, some 10000⟩ rfl rfl

/-- Claim C7, counterexample.  The claim states that a failing usage
increment is surfaced as `success=false`.  At the concrete state `dbFresh`
with the update write raising, `update_token_usage` returns `True`: the
`except` branch deliberately reports success ("permitir la operación"). -/
theorem C7_counterexample :
    update_token_usage dbFresh "u@example.com" 500 false false true
      = (true, dbFresh) := by
  decide

/-- Claim C7, amended.  When the usage-increment write raises — or the
preceding read raises — `update_token_usage` logs the error and returns
`True` with the table unchanged; the failure is never surfaced.  Given a
working client and a non-empty email, its result is `False` exactly when the
read succeeds and the user's row is missing; and it returns `False` for a
missing client or an empty email. -/
theorem C7_write_error_reports_success (db : DB) (email : String) (n : Int)
    (rF wF : Bool) (hc : db.clientOk = true) (he : email ≠ "") :
    (rF = true → update_token_usage db email n false rF wF = (true, db))
    ∧ (∀ r, findRow db email = some r → wF = true →
        update_token_usage db email n false rF wF = (true, db))
    ∧ ((update_token_usage db email n false rF wF).1 = false
        ↔ (rF = false ∧ findRow db email = none))
    ∧ (∀ (db2 : DB) (aF rF2 wF2 : Bool), db2.clientOk = false →
        update_token_usage db2 email n aF rF2 wF2 = (false, db2))
    ∧ (∀ (db2 : DB) (aF rF2 wF2 : Bool),
        update_token_usage db2 "" n aF rF2 wF2 = (false, db2)) := by
  have h1 : ¬(db.clientOk = false ∨ email = "") := by simp [hc, he]
  refine ⟨?_, ?_, ?_, ?_, ?_⟩
  · intro hrF
    cases ha : is_admin db email false with
    | true => simp [update_token_usage, ha]
    | false => simp [update_token_usage, ha, h1, hrF]
  · intro r hfind hwF
    cases ha : is_admin db email false with
    | true => simp [update_token_usage, ha]
    | false =>
      cases hrF : rF with
      | true => simp [update_token_usage, ha, h1]
      | false => simp [update_token_usage, ha, h1, hfind, hwF]
  · cases hrF : rF with
    | true =>
      have hres : update_token_usage db email n false true wF = (true, db) := by
        cases ha : is_admin db email false with
        | true => simp [update_token_usage, ha]
        | false => simp [update_token_usage, ha, h1]
      rw [hres]
      simp
    | false =>
      cases hfind : findRow db email with
      | none =>
        have ha : is_admin db email false = false := by
          simp [is_admin, h1, hfind]
        have hres : update_token_usage db email n false false wF
            = (false, db) := by
          simp [update_token_usage, ha, h1, hfind]
        rw [hres]
        simp [hfind]
      | some r =>
        have hres1 : (update_token_usage db email n false false wF).1
            = true := by
          cases ha : is_admin db email false with
          | true => simp [update_token_usage, ha]
          | false =>
            cases hwF : wF with
            | true => simp [update_token_usage, ha, h1, hfind]
            | false => simp [update_token_usage, ha, h1, hfind]
        rw [hres1]
        simp [hfind]
  · intro db2 aF rF2 wF2 hcl
    have ha : is_admin db2 email aF = false := by simp [is_admin, hcl]
    simp [update_token_usage, ha, hcl]
  · intro db2 aF rF2 wF2
    have ha : is_admin db2 "" aF = false := by simp [is_admin]
    simp [update_token_usage, ha]

/-- Claim C7, witness: on `dbPartUsed`, both a failing write and a failing
read report success and leave the table unchanged. -/
theorem C7_write_error_reports_success_witness :
    update_token_usage dbPartUsed "u@example.com" 250 false false true
      = (true, dbPartUsed)
    ∧ update_token_usage dbPartUsed "u@example.com" 250 false true false
      = (true, dbPartUsed) := by
  have h := C7_write_error_reports_success dbPartUsed "u@example.com" 250
    false true rfl (by decide)
  have h2 := C7_write_error_reports_success dbPartUsed "u@example.com" 250
    true false rfl (by decide)
  exact ⟨h.2.1 ⟨"u@example.com", "user", true, some 100, some 10000⟩ rfl rfl,
    h2.1 rfl⟩

/-- Claim C8, counterexample.  The claim states that an insert failing with
a duplicate/uniqueness violation (the concurrent-request race) yields the
"already pending" outcome.  At the concrete state `dbEmpty` with the insert
raising, `request_access` returns `success=false, status="error"` — the
generic `except` branch, not the pending outcome. -/
theorem C8_counterexample :
    (request_access dbEmpty "new@example.com" false true false).1.success
      = false
    ∧ (request_access dbEmpty "new@example.com" false true false).1.status
      = "error" := by
  constructor
  · rfl
  · rfl

/-- Claim C8, amended.  When the email has no row at lookup time and the
insert raises (as a uniqueness-constraint violation from the concurrent
race would), `request_access` reports `success=false, status="error"` and
leaves the table untouched; the "pending" outcome is produced only for a
row already present at lookup time. -/
theorem C8_insert_error_is_error (db : DB) (email : String) (iE : Bool)
    (hc : db.clientOk = true) (he : email ≠ "")
    (hfind : findRow db email = none) :
    (request_access db email false true iE).1.success = false
    ∧ (request_access db email false true iE).1.status = "error"
    ∧ (request_access db email false true iE).2 = db := by
  have h1 : ¬(db.clientOk = false ∨ email = "") := by simp [hc, he]
  have hchk : check_email_in_whitelist db email false
      = ⟨false, false, "user"⟩ := by
    simp [check_email_in_whitelist, h1, hfind]
  simp [request_access, h1, hchk]

/-- Claim C8, witness: with the insert raising on an unseen email and the
table empty, the call reports the error outcome and the table stays empty. -/
theorem C8_insert_error_is_error_witness :
    (request_access dbEmpty "new@example.com" false true true).1.success
      = false
    ∧ (request_access dbEmpty "new@example.com" false true true).1.status
      = "error"
    ∧ (request_access dbEmpty "new@example.com" false true true).2 = dbEmpty :=
  C8_insert_error_is_error dbEmpty "new@example.com" true rfl (by decide) rfl

/-- Claim C9, counterexample.  The claim states that after `logout` none of
`authenticated`, `user_email`, `is_admin` remain set.  Starting from the
state produced by a successful admin login, `logout` clears the first two
but `is_admin` remains set to `some true`. -/
theorem C9_counterexample :
    logout (loginSuccess {} "u@example.com" "admin")
      = { authenticated := none, user_email := none, is_admin := some true } := by
  decide

/-- Claim C9, amended.  For every prior session state, `logout` clears
`authenticated` and `user_email`; the `is_admin` key is not touched and
keeps its prior value. -/
theorem C9_logout_partial_clear (s : SessionState) :
    (logout s).authenticated = none
    ∧ (logout s).user_email = none
    ∧ (logout s).is_admin = s.is_admin := by
  rcases s with ⟨a, u, ad⟩
  cases a <;> cases u <;> simp [logout]

/-- Claim C10 (code bug).  A stored `token_limit` of 0 is documented in the
code as unlimited ("Si el límite es 0, es ilimitado"), but the preceding
`or 10000` coerces the falsy 0 to 10000 before that test, making the
unlimited branch unreachable: on `dbLimitZero` (limit 0, usage 20000) even a
request for 0 tokens is denied, and the effective limit computed for a
stored 0 is `fin 10000`, never `inf`. -/
theorem C10_limit_zero_not_unlimited :
    (check_token_usage dbLimitZero "u@example.com" 0 false
        false).can_proceed = false
    ∧ effTokenLimit (some 0) = .fin 10000 := by
  constructor
  · rfl
  · rfl

end AudioTour
